import Mathlib

/-!
# Verification of the service-directory search layer

Shallow embedding of the query-construction and result-formatting code of
the `service-directory` repository:

* `service_directory/api/django-haystack_mod.py`
  (`FuzzyElasticsearchSearchBackend.build_search_kwargs`,
   `FuzzyElasticsearchSearchQuery.build_query_fragment`)
* `service_directory/api/serializers.py`
  (`SearchSerializer.perform_search`, `SearchSerializer.load_search_results`,
   `SearchSerializer.format_results`)

Python dictionaries are embedded as insertion-ordered association lists over
a JSON-like value type `Val`; Python floats are abstracted to `Rat`;
Python exceptions are modelled by `Option`.
-/

namespace ServiceDirectory

/-- JSON-like values: the shape of the Elasticsearch query documents that
`build_search_kwargs` assembles.  Objects are insertion-ordered key/value
lists, mirroring Python dict semantics. -/
inductive Val where
  | vnull : Val
  | b : Bool → Val
  | i : Int → Val
  | r : Rat → Val
  | s : String → Val
  | arr : List Val → Val
  | obj : List (String × Val) → Val

/-- Python truthiness of a `Val` (used by `extra_options.pop('global_scope', False)`). -/
def pyTruthy : Val → Bool
  | .vnull => false
  | .b v => v
  | .i v => v != 0
  | .r v => v != 0
  | .s v => v != ""
  | .arr xs => !xs.isEmpty
  | .obj kvs => !kvs.isEmpty

/-- `d[k]` lookup on an insertion-ordered dict (first binding wins, as keys are
unique in a Python dict). -/
def dictGet (d : List (String × Val)) (k : String) : Option Val :=
  (d.find? (fun kv => kv.1 == k)).map (·.2)

/-- `k in d` membership test. -/
def dictHas (d : List (String × Val)) (k : String) : Bool :=
  d.any (fun kv => kv.1 == k)

/-- `d[k] = v` assignment: replaces the binding in place if the key exists,
otherwise appends at the end — exactly Python's insertion-order behaviour. -/
def dictSet (d : List (String × Val)) (k : String) (v : Val) :
    List (String × Val) :=
  if d.any (fun kv => kv.1 == k) then
    d.map (fun kv => if kv.1 == k then (k, v) else kv)
  else
    d ++ [(k, v)]

/-- `d.pop(k, default)` (the removal part): drop the binding for `k`. -/
def dictRemove (d : List (String × Val)) (k : String) : List (String × Val) :=
  d.filter (fun kv => kv.1 ≠ k)

/-- `d.update(other)`: set each binding of `other` into `d` in order. -/
def dictUpdate (d other : List (String × Val)) : List (String × Val) :=
  other.foldl (fun acc kv => dictSet acc kv.1 kv.2) d

/-- `d.setdefault(k, v)`: insert `(k, v)` at the end only when `k` is absent. -/
def dictSetDefault (d : List (String × Val)) (k : String) (v : Val) :
    List (String × Val) :=
  if dictHas d k then d else d ++ [(k, v)]

/-- `d[k1][k2] = v` on a nested dict (the `k1` binding is expected to hold an
object, which `setdefault` guarantees at every use site). -/
def dictSetIn (d : List (String × Val)) (k1 k2 : String) (v : Val) :
    List (String × Val) :=
  match dictGet d k1 with
  | some (.obj inner) => dictSet d k1 (.obj (dictSet inner k2 v))
  | _ => d

/-- The key/value list of an object value. -/
def objPairs : Val → List (String × Val)
  | .obj kvs => kvs
  | _ => []

/-! ### Python string primitives

Lean's built-in `String.startsWith`/`String.toLower`/`String.split` are
implemented on byte positions and do not reduce inside the kernel, so the
Python string operations used by the source are re-implemented structurally
over the underlying character lists. -/

/-- `Char`-list version of "is a leading segment of". -/
def isPre : List Char → List Char → Bool
  | [], _ => true
  | _ :: _, [] => false
  | c :: cs, d :: ds => c == d && isPre cs ds

/-- Python `s.startswith(pre)`. -/
def pyStartsWith (s pre : String) : Bool := isPre pre.data s.data

/-- Python `s.endswith(suf)`. -/
def pyEndsWith (s suf : String) : Bool := isPre suf.data.reverse s.data.reverse

/-- Python `s.lower()` (the source only lowers ASCII unit names). -/
def pyLower (s : String) : String := String.mk (s.data.map Char.toLower)

/-- Splitting a character list at every occurrence of `c`, keeping empty
segments — the semantics of Python's `str.split(c)` with an explicit
separator. -/
def splitChars (c : Char) : List Char → List (List Char)
  | [] => [[]]
  | x :: xs =>
    let rest := splitChars c xs
    if x = c then [] :: rest
    else
      match rest with
      | r :: rs => (x :: r) :: rs
      | [] => [[x]]

/-- Python `s.split(c)` (single-character separator, empty pieces kept). -/
def pySplit (s : String) (c : Char) : List String :=
  (splitChars c s.data).map String.mk

/-- Python string comparison order: lexicographic on code points. -/
def strDataLe (a b : String) : Prop := a.data ≤ b.data

instance : DecidableRel strDataLe := fun a b =>
  inferInstanceAs (Decidable (a.data ≤ b.data))

instance : IsTotal String strDataLe := ⟨fun a b => le_total a.data b.data⟩

instance : IsTrans String strDataLe := ⟨fun _ _ _ => le_trans⟩

/-- Python `sorted` on strings: a stable sort under the code-point order.
Insertion sort is extensionally equal to it (stability only matters for
equal keys, and equal strings are identical). -/
def sortStrings (l : List String) : List String := List.insertionSort strDataLe l

/-! ### `FuzzyElasticsearchSearchBackend.build_search_kwargs`
(`service_directory/api/django-haystack_mod.py`, lines 52-284)

Python floats are abstracted to `Rat`.  Third-party inputs are passed as
parameters: the unified index's document field, `DEFAULT_OPERATOR`, the
fuzzy settings, `self.include_spelling`, `self.build_models_list()` and the
`HAYSTACK_LIMIT_TO_REGISTERED_MODELS` setting live in `BackendConfig`. -/

/-- A GEOS point; `get_coords()` returns `(x, y) = (longitude, latitude)`. -/
structure Point where
  x : Rat
  y : Rat
deriving DecidableEq

/-- `haystack.constants.DJANGO_CT`. -/
def DJANGO_CT : String := "django_ct"

/-- Process-wide inputs of `build_search_kwargs` that come from settings,
the unified index and the backend object rather than from the call. -/
structure BackendConfig where
  contentField : String
  defaultOperator : String
  fuzzyMinSim : Rat
  fuzzyMaxExpansions : Int
  includeSpelling : Bool
  registeredModels : List String
  limitToRegisteredDefault : Bool
  esVersionAtLeast100 : Bool

/-- The `distance_point` argument: a dict with a `field` and a `point`. -/
structure DistancePointArg where
  field : String
  point : Point

/-- The `within` argument: a field plus the two corner points. -/
structure WithinArgs where
  field : String
  point_1 : Point
  point_2 : Point

/-- The `dwithin` argument: a field, a centre point and a `D` distance whose
`.km` attribute is modelled directly. -/
structure DwithinArgs where
  field : String
  point : Point
  distanceKm : Rat

/-- One value of the `date_facets` dict.  `gap_amount` is `none` when the
key is absent (`value.get('gap_amount', 1)` then yields 1); the start and
end dates are modelled by the text `_from_python` renders them to. -/
structure DateFacetOpts where
  gap_by : String
  gap_amount : Option Int
  start_date : String
  end_date : String

/-- The per-call arguments of `build_search_kwargs`.  `fields` models both
the string and the list form of the Python argument as a list of tokens
(the emitted value is their space-joined text in either case); facet dicts
are insertion-ordered association lists. -/
structure SearchKwargsArgs where
  query_string : String
  sort_by : Option (List (String × String))
  fields : List String
  highlight : Bool
  facets : Option (List (String × List (String × Val)))
  date_facets : Option (List (String × DateFacetOpts))
  query_facets : Option (List (String × String))
  narrow_queries : Option (List String)
  spelling_query : Option String
  within : Option WithinArgs
  dwithin : Option DwithinArgs
  distance_point : Option DistancePointArg
  models : Option (List String)
  limit_to_registered_models : Option Bool

/-- The ES backend's `_from_python` is the identity on strings (it merely
`force_text`s them); all values routed through it here are already text. -/
def fromPython (s : String) : String := s

/-- The initial `kwargs['query']` clause: `match_all` for the universal
`*:*` query, a `query_string` clause otherwise (lines 65-84). -/
def baseQuery (cfg : BackendConfig) (query_string : String) : Val :=
  if query_string = "*:*" then
    .obj [("match_all", .obj [])]
  else
    .obj [("query_string", .obj
      [("default_field", .s cfg.contentField),
       ("default_operator", .s cfg.defaultOperator),
       ("query", .s query_string),
       ("analyze_wildcard", .b true),
       ("auto_generate_phrase_queries", .b true),
       ("fuzzy_min_sim", .r cfg.fuzzyMinSim),
       ("fuzzy_max_expansions", .i cfg.fuzzyMaxExpansions)])]

/-- One entry of the `sort` list (lines 97-115): a `_geo_distance` clause
when the field is `distance` and a distance point is present, otherwise a
plain field sort (with a warning when the field is `distance`). -/
def buildSortEntry (distance_point : Option DistancePointArg)
    (fd : String × String) : Val :=
  if fd.1 = "distance" then
    match distance_point with
    | some dp =>
        .obj [("_geo_distance", .obj
          [(dp.field, .arr [.r dp.point.x, .r dp.point.y]),
           ("order", .s fd.2),
           ("unit", .s "km")])]
    | none =>
        -- warnings.warn("In order to sort by distance, ...") then a
        -- regular sort.
        .obj [(fd.1, .obj [("order", .s fd.2)])]
  else
    .obj [(fd.1, .obj [("order", .s fd.2)])]

/-- `spelling_query or query_string` (Python `or`: empty strings are falsy). -/
def pyOrStr (a : Option String) (b : String) : String :=
  match a with
  | some s => if s = "" then b else s
  | none => b

/-- Lines 151-156: the initial facet options, a `terms` dict with the
field and the fixed page size 100. -/
def tfInit (facet_fieldname : String) : List (String × Val) :=
  [("terms", .obj [("field", .s facet_fieldname), ("size", .i 100)])]

/-- Lines 158-160: `if extra_options.pop('global_scope', False):` — when
the popped value is truthy, a facet-level `global` flag is appended. -/
def tfGlobal (facet_fieldname : String)
    (extra_options : List (String × Val)) : List (String × Val) :=
  if pyTruthy ((dictGet extra_options "global_scope").getD (.b false)) then
    dictSet (tfInit facet_fieldname) "global" (.b true)
  else tfInit facet_fieldname

/-- Lines 161-162: a `facet_filter` among the remaining extra options
(the `global_scope` binding is already popped) moves to the facet level. -/
def tfFacetFilter (facet_fieldname : String)
    (extra_options : List (String × Val)) : List (String × Val) :=
  match dictGet (dictRemove extra_options "global_scope") "facet_filter" with
  | some ff => dictSet (tfGlobal facet_fieldname extra_options) "facet_filter" ff
  | none => tfGlobal facet_fieldname extra_options

/-- The terms-facet clause built for one `(facet_fieldname, extra_options)`
pair (lines 150-164): after the two pops, line 163 merges whatever is left
of the extra options into the `terms` dict in place. -/
def buildTermsFacet (facet_fieldname : String)
    (extra_options : List (String × Val)) : Val :=
  .obj (dictSet (tfFacetFilter facet_fieldname extra_options) "terms"
    (.obj (dictUpdate
      (objPairs ((dictGet (tfFacetFilter facet_fieldname extra_options)
        "terms").getD .vnull))
      (dictRemove (dictRemove extra_options "global_scope") "facet_filter"))))

/-- The date-histogram `interval` string (lines 170-176): the lower-cased
gap unit, with the gap amount prefixed to the unit's first character when
the amount differs from 1 and the unit is neither `month` nor `year`. -/
def dateFacetInterval (opts : DateFacetOpts) : String :=
  if opts.gap_amount.getD 1 ≠ 1 ∧ pyLower opts.gap_by ≠ "month"
      ∧ pyLower opts.gap_by ≠ "year" then
    toString (opts.gap_amount.getD 1) ++ (pyLower opts.gap_by).take 1
  else pyLower opts.gap_by

/-- The date-histogram facet clause for one field (lines 178-191). -/
def buildDateFacet (facet_fieldname : String) (opts : DateFacetOpts) : Val :=
  .obj
    [("date_histogram", .obj
       [("field", .s facet_fieldname),
        ("interval", .s (dateFacetInterval opts))]),
     ("facet_filter", .obj
       [("range", .obj
          [(facet_fieldname, .obj
             [("from", .s (fromPython opts.start_date)),
              ("to", .s (fromPython opts.end_date))])])])]

/-- The query-facet clause for one `(facet_fieldname, value)` pair
(lines 196-203). -/
def buildQueryFacet (value : String) : Val :=
  .obj [("query", .obj [("query_string", .obj [("query", .s value)])])]

/-- Lines 205-215: the list of model content types to restrict to — the
sorted explicit `models` when non-empty, else `build_models_list()` when
limiting to registered models, else nothing.  `sorted(...)` does not
deduplicate. -/
def modelChoices (cfg : BackendConfig) (models : Option (List String))
    (limit_to_registered_models : Option Bool) : List String :=
  match models with
  | some (m :: ms) => sortStrings (m :: ms)
  | _ =>
    if limit_to_registered_models.getD cfg.limitToRegisteredDefault then
      cfg.registeredModels
    else []

/-- One narrow-query filter (lines 220-230). -/
def narrowFilter (q : String) : Val :=
  .obj [("fquery", .obj
    [("query", .obj [("query_string", .obj [("query", .s q)])]),
     ("_cache", .b true)])]

/-- `haystack.utils.geo.generate_bounding_box`: returns
`((south, west), (north, east))` with the latitudes ordered. -/
def generateBoundingBox (point_1 point_2 : Point) : (Rat × Rat) × (Rat × Rat) :=
  let west := point_1.x
  let east := point_2.x
  let south := min point_1.y point_2.y
  let north := max point_1.y point_2.y
  ((south, west), (north, east))

/-- The `geo_bounding_box` filter built from `within` (lines 232-250). -/
def withinFilter (w : WithinArgs) : Val :=
  let bb := generateBoundingBox w.point_1 w.point_2
  .obj [("geo_bounding_box", .obj
    [(w.field, .obj
       [("top_left", .obj [("lat", .r bb.2.1), ("lon", .r bb.1.2)]),
        ("bottom_right", .obj [("lat", .r bb.1.1), ("lon", .r bb.2.2)])])])]

/-- Round-half-even of a rational, the rounding Python's fixed-point
formatting performs (float representation error is abstracted away). -/
def roundHalfEven (q : Rat) : Int :=
  let f := q.floor
  let frac := q - f
  if frac < 1 / 2 then f
  else if 1 / 2 < frac then f + 1
  else if f % 2 = 0 then f else f + 1

/-- `"%.<dp>f" % q`: fixed-point decimal text with `dp` fractional digits. -/
def formatFixed (dp : Nat) (q : Rat) : String :=
  let n := roundHalfEven (q * (10 : Rat) ^ dp)
  let sign := if n < 0 then "-" else ""
  let m := n.natAbs
  let base := 10 ^ dp
  let fstr := toString (m % base)
  let fstr := String.mk (List.replicate (dp - fstr.length) '0') ++ fstr
  sign ++ toString (m / base) ++ (if dp = 0 then "" else "." ++ fstr)

/-- The `geo_distance` filter built from `dwithin` (lines 252-274); for
elasticsearch ≥ 1.0.0 the distance is the `%.6f`-formatted km text,
otherwise the bare number. -/
def dwithinFilter (cfg : BackendConfig) (d : DwithinArgs) : Val :=
  let distance : Val :=
    if cfg.esVersionAtLeast100 then .s (formatFixed 6 d.distanceKm ++ "km")
    else .r d.distanceKm
  .obj [("geo_distance", .obj
    [("distance", distance),
     (d.field, .obj [("lat", .r d.point.y), ("lon", .r d.point.x)])])]

/-- The filters of lines 220-274 that do not come from the model-type
restriction: narrow queries, bounding box, radius, in source order. -/
def nonModelFilters (cfg : BackendConfig) (a : SearchKwargsArgs) : List Val :=
  (a.narrow_queries.getD []).map narrowFilter
  ++ (match a.within with | some w => [withinFilter w] | none => [])
  ++ (match a.dwithin with | some d => [dwithinFilter cfg d] | none => [])

/-- The `filters` list accumulated on lines 87 and 205-274, in source
order: model-type restriction (when any model choice is left), then the
rest. -/
def buildFilters (cfg : BackendConfig) (a : SearchKwargsArgs) : List Val :=
  (if (modelChoices cfg a.models a.limit_to_registered_models).length > 0 then
    [Val.obj [("terms", .obj
      [(DJANGO_CT, .arr
        ((modelChoices cfg a.models a.limit_to_registered_models).map .s))])]]
   else [])
  ++ nonModelFilters cfg a

/-- Lines 89-93: `kwargs['fields'] = fields` when `fields` is truthy. -/
def fieldsStep (a : SearchKwargsArgs) (kwargs : List (String × Val)) :
    List (String × Val) :=
  if a.fields = [] then kwargs
  else dictSet kwargs "fields" (.s (String.intercalate " " a.fields))

/-- Lines 95-117: the sort list. -/
def sortStep (a : SearchKwargsArgs) (kwargs : List (String × Val)) :
    List (String × Val) :=
  match a.sort_by with
  | none => kwargs
  | some sb =>
      dictSet kwargs "sort" (.arr (sb.map (buildSortEntry a.distance_point)))

/-- Lines 126-131: the highlight clause. -/
def highlightStep (cfg : BackendConfig) (a : SearchKwargsArgs)
    (kwargs : List (String × Val)) : List (String × Val) :=
  if a.highlight then
    dictSet kwargs "highlight"
      (.obj [("fields", .obj [(cfg.contentField, .obj [("store", .s "yes")])])])
  else kwargs

/-- Lines 133-142: the spelling-suggestion clause. -/
def suggestStep (cfg : BackendConfig) (a : SearchKwargsArgs)
    (kwargs : List (String × Val)) : List (String × Val) :=
  if cfg.includeSpelling then
    dictSet kwargs "suggest"
      (.obj [("suggest", .obj
        [("text", .s (pyOrStr a.spelling_query a.query_string)),
         ("term", .obj [("field", .s "_all")])])])
  else kwargs

/-- Lines 147-164: terms facets. -/
def facetsStep (a : SearchKwargsArgs) (kwargs : List (String × Val)) :
    List (String × Val) :=
  match a.facets with
  | none => kwargs
  | some fcs =>
      fcs.foldl
        (fun kw nb => dictSetIn kw "facets" nb.1 (buildTermsFacet nb.1 nb.2))
        (dictSetDefault kwargs "facets" (.obj []))

/-- Lines 166-191: date-histogram facets. -/
def dateFacetsStep (a : SearchKwargsArgs) (kwargs : List (String × Val)) :
    List (String × Val) :=
  match a.date_facets with
  | none => kwargs
  | some fcs =>
      fcs.foldl
        (fun kw nb => dictSetIn kw "facets" nb.1 (buildDateFacet nb.1 nb.2))
        (dictSetDefault kwargs "facets" (.obj []))

/-- Lines 193-203: query facets. -/
def queryFacetsStep (a : SearchKwargsArgs) (kwargs : List (String × Val)) :
    List (String × Val) :=
  match a.query_facets with
  | none => kwargs
  | some fcs =>
      fcs.foldl
        (fun kw nb => dictSetIn kw "facets" nb.1 (buildQueryFacet nb.2))
        (dictSetDefault kwargs "facets" (.obj []))

/-- Lines 276-282: when any filter accumulated, move the base query under a
`filtered` wrapper whose `filter` is the single filter, or a bool `must`
group of all of them. -/
def filtersStep (filters : List Val) (kwargs : List (String × Val)) :
    List (String × Val) :=
  match filters with
  | [] => kwargs
  | [f] =>
      dictSet (dictRemove kwargs "query") "query"
        (.obj [("filtered", .obj
          [("query", (dictGet kwargs "query").getD .vnull), ("filter", f)])])
  | fs =>
      dictSet (dictRemove kwargs "query") "query"
        (.obj [("filtered", .obj
          [("query", (dictGet kwargs "query").getD .vnull),
           ("filter", .obj [("bool", .obj [("must", .arr fs)])])])])

/-- The kwargs dict as of line 275, just before the filter combination:
each `let` is one block of the source, in source order. -/
def kwargsBeforeFilters (cfg : BackendConfig) (a : SearchKwargsArgs) :
    List (String × Val) :=
  let kwargs : List (String × Val) := [("query", baseQuery cfg a.query_string)]
  let kwargs := fieldsStep a kwargs
  let kwargs := sortStep a kwargs
  let kwargs := highlightStep cfg a kwargs
  let kwargs := suggestStep cfg a kwargs
  let kwargs := facetsStep a kwargs
  let kwargs := dateFacetsStep a kwargs
  queryFacetsStep a kwargs

/-- `FuzzyElasticsearchSearchBackend.build_search_kwargs` (lines 52-284):
the full search-kwargs document. -/
def buildSearchKwargs (cfg : BackendConfig) (a : SearchKwargsArgs) : Val :=
  .obj (filtersStep (buildFilters cfg a) (kwargsBeforeFilters cfg a))

/-! ### `FuzzyElasticsearchSearchQuery.build_query_fragment`
(`service_directory/api/django-haystack_mod.py`, lines 288-378)

The haystack `InputType` machinery is modelled at the boundary the function
observes: an input carries its `input_type_name`, its `post_process` flag,
whether it is a `Raw` instance, and the value `value.prepare(self)` (with a
non-collection result already passed through `_from_python`, which is the
identity on text).  Python exceptions (`KeyError` on an unknown filter
type, index errors on malformed range values) are modelled by `none`;
non-string collections routed through the scalar text operators — which in
Python would fall back to rendering the collection's `repr` — are outside
the modelled domain and also map to `none`. -/

/-- A prepared haystack input value: a string, or a collection of prepared
strings (for the `in`/`range` operators). -/
inductive Prepared where
  | str : String → Prepared
  | coll : List String → Prepared

/-- What `build_query_fragment` observes of its `value` argument. -/
structure HInput where
  input_type_name : String
  post_process : Bool
  isRaw : Bool
  prepared : Prepared

/-- The `filter_types` template dict (lines 320-329); `none` models the
`KeyError` an unknown filter type raises at lookup. -/
def filterTemplates : String → Option (String → String)
  | "contains" => some (fun s => s)
  | "startswith" => some (fun s => s ++ "*")
  | "exact" => some (fun s => s)
  | "gt" => some (fun s => "\x7b" ++ s ++ " TO *\x7d")
  | "gte" => some (fun s => "[" ++ s ++ " TO *]")
  | "lt" => some (fun s => "\x7b* TO " ++ s ++ "\x7d")
  | "lte" => some (fun s => "[* TO " ++ s ++ "]")
  | "fuzzy" => some (fun s => s ++ "~")
  | _ => none

/-- `haystack.inputs.Exact.prepare`: wrap the text in double quotes. -/
def exactPrepare (s : String) : String := "\"" ++ s ++ "\""

/-- The `query_frag` computed on lines 331-372, before the parenthesis
post-processing and the field prefixing. -/
def rawFragment (filter_type : String) (value : HInput) : Option String :=
  if value.post_process = false then
    match value.prepared with
    | .str s => some s
    | .coll _ => none
  else if filter_type = "contains" ∨ filter_type = "startswith"
      ∨ filter_type = "fuzzy" then
    if value.input_type_name = "exact" then
      match value.prepared with
      | .str s => some s
      | .coll _ => none
    else
      match filterTemplates filter_type with
      | none => none
      | some tmpl =>
        match value.prepared with
        | .str s =>
            -- for possible_value in prepared_value.split(' '):
            --   terms.append(filter_types[filter_type] % _from_python(...))
            let terms := (pySplit s ' ').map (fun t => tmpl (fromPython t))
            if terms.length = 1 then some (terms.headD "")
            else some ("(" ++ String.intercalate " AND " terms ++ ")")
        | .coll _ => none
  else if filter_type = "in" then
    -- for possible_value in prepared_value: quote each element; a string
    -- iterates over its characters.
    let in_options :=
      match value.prepared with
      | .coll xs => xs.map (fun pv => "\"" ++ fromPython pv ++ "\"")
      | .str s => s.data.map (fun c => "\"" ++ String.mk [c] ++ "\"")
    some ("(" ++ String.intercalate " OR " in_options ++ ")")
  else if filter_type = "range" then
    match value.prepared with
    | .coll (a :: b :: _) =>
        some ("[\"" ++ fromPython a ++ "\" TO \"" ++ fromPython b ++ "\"]")
    | .coll _ => none
    | .str s =>
        match s.data with
        | c0 :: c1 :: _ =>
            some ("[\"" ++ String.mk [c0] ++ "\" TO \"" ++ String.mk [c1] ++ "\"]")
        | _ => none
  else if filter_type = "exact" then
    match value.prepared with
    | .str s =>
        if value.input_type_name = "exact" then some s
        else some (exactPrepare s)
    | .coll _ => none
  else
    match filterTemplates filter_type with
    | none => none
    | some tmpl =>
      match value.prepared with
      | .str s =>
          if value.input_type_name = "exact" then some (tmpl s)
          else some (tmpl (exactPrepare s))
      | .coll _ => none

/-- The configuration `build_query_fragment` reads from the connection:
`get_unified_index().get_index_fieldname(field)`. -/
structure QueryCfg where
  indexFieldname : String → String

/-- `FuzzyElasticsearchSearchQuery.build_query_fragment` (lines 288-378):
compute the fragment, parenthesise non-empty non-`Raw` fragments that
neither start with `(` nor end with `)` (lines 374-376), and attach the
index field prefix unless the field is the reserved `content` (315-318). -/
def build_query_fragment (cfg : QueryCfg) (field filter_type : String)
    (value : HInput) : Option String :=
  match rawFragment filter_type value with
  | none => none
  | some frag =>
    let index_fieldname :=
      if field = "content" then "" else cfg.indexFieldname field ++ ":"
    let frag :=
      if frag.length ≠ 0 ∧ value.isRaw = false then
        if pyStartsWith frag "(" = false ∧ pyEndsWith frag ")" = false then
          "(" ++ frag ++ ")"
        else frag
      else frag
    some (index_fieldname ++ frag)

/-! ### `SearchSerializer` (`service_directory/api/serializers.py`)

The haystack `SearchQuerySet` is embedded as the list of chained calls
applied to it — a query AST; executing it against the engine is the
out-of-scope collaborator. -/

/-- One chained `SearchQuerySet` call made by `perform_search`. -/
inductive SQSOp where
  | customQuery : Val → SQSOp
  | filterCategoriesIn : List Int → SQSOp
  | filterCountry : String → SQSOp
  | distanceAnnotate : String → Point → SQSOp
  | orderBy : String → SQSOp
  | dwithinOp : String → Point → Int → SQSOp

/-- The geo-dependent calls: the `.distance(...)` annotation, ordering, and
the `.dwithin(...)` radius restriction. -/
def SQSOp.isGeo : SQSOp → Bool
  | .distanceAnnotate _ _ => true
  | .orderBy _ => true
  | .dwithinOp _ _ _ => true
  | _ => false

/-- `.dwithin(...)`: the geo-distance (radius) restriction. -/
def SQSOp.isDwithin : SQSOp → Bool
  | .dwithinOp _ _ _ => true
  | _ => false

/-- A `SearchQuerySet` as the ordered list of calls chained onto it. -/
abbrev SQS := List SQSOp

/-- `self.validated_data` of a valid `SearchSerializer` request. -/
structure ValidatedSearchData where
  location : Option Point
  radius : Option Int
  place_name : Option String
  search_term : Option String
  country : Option String
  categories : Option (List Int)

/-- The custom fuzzy match query built for a search term (lines 57-64). -/
def searchTermQuery (term : String) : Val :=
  .obj [("match", .obj
    [("text", .obj [("query", .s term), ("fuzziness", .s "AUTO")])])]

/-- Lines 56-65: `if search_term: sqs = sqs.custom_query(query)` (Python
truthiness: `None` and the empty string are falsy). -/
def searchTermStep (d : ValidatedSearchData) (sqs : SQS) : SQS :=
  match d.search_term with
  | some t => if t = "" then sqs else sqs ++ [.customQuery (searchTermQuery t)]
  | none => sqs

/-- Lines 67-68: `if categories: sqs = sqs.filter(categories__in=...)`. -/
def categoriesStep (d : ValidatedSearchData) (sqs : SQS) : SQS :=
  match d.categories with
  | some cs => if cs = [] then sqs else sqs ++ [.filterCategoriesIn cs]
  | none => sqs

/-- Lines 70-71: `if country: sqs = sqs.filter(country=country)`. -/
def countryStep (d : ValidatedSearchData) (sqs : SQS) : SQS :=
  match d.country with
  | some c => if c = "" then sqs else sqs ++ [.filterCountry c]
  | none => sqs

/-- Lines 73-77: the geo block — distance annotation plus ordering, and the
radius restriction only when both `location` and `radius` are truthy. -/
def locationStep (d : ValidatedSearchData) (sqs : SQS) : SQS :=
  match d.location with
  | some loc =>
    let sqs := sqs ++ [.distanceAnnotate "location" loc, .orderBy "distance"]
    match d.radius with
    | some r => if r = 0 then sqs else sqs ++ [.dwithinOp "location" loc r]
    | none => sqs
  | none => sqs

/-- `SearchSerializer.perform_search` (lines 49-79): the four conditional
blocks applied in source order. -/
def perform_search (d : ValidatedSearchData) (sqs : SQS) : SQS :=
  locationStep d (countryStep d (categoriesStep d (searchTermStep d sqs)))

/-- An organisation entity as the formatter sees it; `distanceAttr` is the
dynamically attached `.distance` attribute. -/
structure Organisation where
  oid : Nat
  name : String
  distanceAttr : Option String
deriving DecidableEq, Inhabited

/-- A Django `Distance` value: finite metres, or the `float('inf')` the
engine reports when no geo context applies. -/
inductive PyDistance where
  | fin : Rat → PyDistance
  | inf : PyDistance
deriving DecidableEq

/-- One haystack search hit.  `object = none` models a hit whose backing
entity no longer exists, so that touching `result.object` raises the
`AttributeError` that `format_results` catches; `distance = none` models
`hasattr(result, 'distance')` being false. -/
structure SearchResult where
  object : Option Organisation
  distance : Option PyDistance
deriving DecidableEq

/-- `SearchSerializer.load_search_results` (lines 81-82): run the search,
load the backing objects (`load_all`, the out-of-scope engine round-trip,
passed as a function) and keep the first `limit` hits.  The `Search` view
calls this with the default `limit=20`. -/
def load_search_results (loadAll : SQS → List SearchResult)
    (d : ValidatedSearchData) (sqs : SQS) (limit : Nat) : List SearchResult :=
  (loadAll (perform_search d sqs)).take limit

/-- Lines 103-105: attach the `'{0:.2f}km'` text when the hit carries a
finite distance. -/
def annotateDistance (org : Organisation) (dist : Option PyDistance) :
    Organisation :=
  match dist with
  | some (.fin m) =>
      { org with distanceAttr := some (formatFixed 2 (m / 1000) ++ "km") }
  | _ => org

/-- The body of the `try`ed list comprehension (lines 88-95) for one hit:
`(result.object, result.distance if hasattr(result, 'distance') else None)`,
with `none` propagating the `AttributeError` of a failed resolution. -/
def resolveHit (r : SearchResult) : Option (Organisation × Option PyDistance) :=
  r.object.map (fun o => (o, r.distance))

/-- The `try`ed list comprehension itself: the whole run aborts (`none`) at
the first hit whose resolution raises. -/
def resolveAll : List SearchResult →
    Option (List (Organisation × Option PyDistance))
  | [] => some []
  | r :: rest =>
    match resolveHit r, resolveAll rest with
    | some p, some ps => some (p :: ps)
    | _, _ => none

/-- `SearchSerializer.format_results` (lines 84-110).  The whole list
comprehension sits inside one `try`: a raising hit aborts it, leaving
`organisation_distance_tuples` at its initial `[]` (only a warning is
logged). -/
def format_results (sqs : List SearchResult) : List Organisation :=
  let tuples := (resolveAll sqs).getD []
  let tuples := tuples.map (fun od => (annotateDistance od.1 od.2, od.2))
  match tuples with
  | [] => []
  | ts => ts.map (fun od => od.1)

/-- The search view's result pipeline (`views.py` lines 171-176): load at
most the default 20 hits, then format them. -/
def searchViewResults (loadAll : SQS → List SearchResult)
    (d : ValidatedSearchData) (sqs : SQS) : List Organisation :=
  format_results (load_search_results loadAll d sqs 20)

/-! ### Association-list dictionary lemmas -/

theorem dictGet_nil (k : String) : dictGet [] k = none := rfl

theorem dictGet_cons (kv : String × Val) (d : List (String × Val))
    (k : String) :
    dictGet (kv :: d) k = if kv.1 = k then some kv.2 else dictGet d k := by
  by_cases h : kv.1 = k
  · simp [dictGet, List.find?_cons, h]
  · have hb : (kv.1 == k) = false := by simpa using h
    simp [dictGet, List.find?_cons, hb, h]

theorem dictGet_append (d e : List (String × Val)) (k : String) :
    dictGet (d ++ e) k = (dictGet d k).or (dictGet e k) := by
  simp only [dictGet, List.find?_append]
  cases List.find? (fun kv => kv.1 == k) d <;> simp

theorem dictGet_eq_none_of_any_eq_false {d : List (String × Val)}
    {k : String} (h : d.any (fun kv => kv.1 == k) = false) :
    dictGet d k = none := by
  induction d with
  | nil => rfl
  | cons kv rest ih =>
    rw [List.any_cons, Bool.or_eq_false_iff] at h
    have hne : ¬ kv.1 = k := by simpa using h.1
    rw [dictGet_cons, if_neg hne]
    exact ih h.2

theorem dictGet_map_set_self {k : String} (v : Val) :
    ∀ d : List (String × Val), d.any (fun kv => kv.1 == k) = true →
    dictGet (d.map (fun kv => if kv.1 == k then (k, v) else kv)) k = some v := by
  intro d
  induction d with
  | nil => intro h; simp at h
  | cons kv rest ih =>
    intro hany
    rw [List.map_cons]
    by_cases h : kv.1 = k
    · have hb : (kv.1 == k) = true := by simpa using h
      rw [hb]
      simp only [if_true]
      rw [dictGet_cons]
      simp
    · have hb : (kv.1 == k) = false := by simpa using h
      rw [hb]
      simp only [Bool.false_eq_true, if_false]
      rw [dictGet_cons, if_neg h]
      rw [List.any_cons, hb, Bool.false_or] at hany
      exact ih hany

theorem dictGet_dictSet_self (d : List (String × Val)) (k : String)
    (v : Val) : dictGet (dictSet d k v) k = some v := by
  unfold dictSet
  split
  · exact dictGet_map_set_self v d (by assumption)
  · rename_i hany
    rw [dictGet_append,
        dictGet_eq_none_of_any_eq_false (Bool.eq_false_iff.mpr hany)]
    rw [dictGet_cons]
    simp

theorem dictGet_map_set_ne {k k' : String} (v : Val) (h : k' ≠ k) :
    ∀ d : List (String × Val),
    dictGet (d.map (fun kv => if kv.1 == k then (k, v) else kv)) k'
      = dictGet d k' := by
  intro d
  induction d with
  | nil => rfl
  | cons kv rest ih =>
    rw [List.map_cons]
    by_cases hk : kv.1 = k
    · have hb : (kv.1 == k) = true := by simpa using hk
      rw [hb]
      simp only [if_true]
      rw [dictGet_cons, dictGet_cons, if_neg (Ne.symm h),
          if_neg (by rw [hk]; exact Ne.symm h)]
      exact ih
    · have hb : (kv.1 == k) = false := by simpa using hk
      rw [hb]
      simp only [Bool.false_eq_true, if_false]
      rw [dictGet_cons, dictGet_cons, ih]

theorem dictGet_dictSet_ne (d : List (String × Val)) {k k' : String}
    (v : Val) (h : k' ≠ k) : dictGet (dictSet d k v) k' = dictGet d k' := by
  unfold dictSet
  split
  · exact dictGet_map_set_ne v h d
  · rw [dictGet_append]
    have hsing : dictGet [(k, v)] k' = none := by
      rw [dictGet_cons, if_neg (Ne.symm h)]; rfl
    rw [hsing]
    cases dictGet d k' <;> rfl

theorem dictGet_dictRemove_ne (d : List (String × Val)) {k k' : String}
    (h : k' ≠ k) : dictGet (dictRemove d k) k' = dictGet d k' := by
  induction d with
  | nil => rfl
  | cons kv rest ih =>
    unfold dictRemove at ih ⊢
    rw [List.filter_cons]
    by_cases hk : kv.1 = k
    · rw [if_neg (by simp [hk])]
      rw [dictGet_cons, if_neg (by rw [hk]; exact Ne.symm h)]
      exact ih
    · rw [if_pos (by simp [hk])]
      rw [dictGet_cons, dictGet_cons, ih]

theorem dictGet_dictSetDefault_ne (d : List (String × Val)) {k k' : String}
    (v : Val) (h : k' ≠ k) :
    dictGet (dictSetDefault d k v) k' = dictGet d k' := by
  unfold dictSetDefault
  split
  · rfl
  · rw [dictGet_append]
    have hsing : dictGet [(k, v)] k' = none := by
      rw [dictGet_cons, if_neg (Ne.symm h)]; rfl
    rw [hsing]
    cases dictGet d k' <;> rfl

theorem dictGet_dictSetIn_ne (d : List (String × Val)) {k1 k' : String}
    (k2 : String) (v : Val) (h : k' ≠ k1) :
    dictGet (dictSetIn d k1 k2 v) k' = dictGet d k' := by
  unfold dictSetIn
  split
  · exact dictGet_dictSet_ne _ _ h
  · rfl

theorem dictHas_eq_false_of_get_none {d : List (String × Val)} {k : String}
    (h : dictGet d k = none) : dictHas d k = false := by
  unfold dictGet at h
  unfold dictHas
  rw [Option.map_eq_none'] at h
  rw [List.find?_eq_none] at h
  rw [List.any_eq_false]
  intro x hx
  simpa using h x hx

theorem objPairs_obj (l : List (String × Val)) : objPairs (.obj l) = l := rfl

theorem dictHas_eq_isSome (d : List (String × Val)) (k : String) :
    dictHas d k = (dictGet d k).isSome := by
  induction d with
  | nil => rfl
  | cons kv rest ih =>
    rw [dictGet_cons]
    unfold dictHas at ih ⊢
    rw [List.any_cons]
    by_cases h : kv.1 = k
    · simp [h]
    · have hb : (kv.1 == k) = false := by simpa using h
      rw [hb, if_neg h, Bool.false_or]
      exact ih

theorem dictGet_dictUpdate_of_get_none (d e : List (String × Val))
    (k : String) (h : dictGet e k = none) :
    dictGet (dictUpdate d e) k = dictGet d k := by
  induction e generalizing d with
  | nil => rfl
  | cons kv rest ih =>
    rw [dictGet_cons] at h
    by_cases hk : kv.1 = k
    · rw [if_pos hk] at h
      exact absurd h (by simp)
    · rw [if_neg hk] at h
      unfold dictUpdate
      rw [List.foldl_cons]
      have hrec := ih (dictSet d kv.1 kv.2) h
      unfold dictUpdate at hrec
      rw [hrec, dictGet_dictSet_ne _ _ (fun he => hk he.symm)]

theorem dictGet_dictUpdate_of_get_some :
    ∀ (e d : List (String × Val)) (k : String) (v : Val),
    (e.map Prod.fst).Nodup → dictGet e k = some v →
    dictGet (dictUpdate d e) k = some v := by
  intro e
  induction e with
  | nil =>
    intro d k v _ h
    simp [dictGet_nil] at h
  | cons kv rest ih =>
    intro d k v hnd h
    rw [dictGet_cons] at h
    rw [List.map_cons, List.nodup_cons] at hnd
    unfold dictUpdate
    rw [List.foldl_cons]
    by_cases hk : kv.1 = k
    · rw [if_pos hk] at h
      have hrest : dictGet rest k = none := by
        apply dictGet_eq_none_of_any_eq_false
        rw [List.any_eq_false]
        intro x hx
        simp only [beq_iff_eq]
        intro hxk
        exact hnd.1 (by
          rw [hk, ← hxk]
          exact List.mem_map_of_mem Prod.fst hx)
      have hrec := dictGet_dictUpdate_of_get_none (dictSet d kv.1 kv.2)
        rest k hrest
      unfold dictUpdate at hrec
      rw [hrec, hk, dictGet_dictSet_self]
      exact h
    · rw [if_neg hk] at h
      exact ih (dictSet d kv.1 kv.2) k v hnd.2 h

theorem keys_dictRemove_nodup {d : List (String × Val)} (k : String)
    (h : (d.map Prod.fst).Nodup) :
    ((dictRemove d k).map Prod.fst).Nodup :=
  ((List.filter_sublist d).map Prod.fst).nodup h

theorem tfGlobal_get_terms (name : String) (extra : List (String × Val)) :
    dictGet (tfGlobal name extra) "terms"
      = some (.obj [("field", .s name), ("size", .i 100)]) := by
  unfold tfGlobal
  split
  · rw [dictGet_dictSet_ne _ _ (by decide)]
    rfl
  · rfl

theorem tfFacetFilter_get_terms (name : String)
    (extra : List (String × Val)) :
    dictGet (tfFacetFilter name extra) "terms"
      = some (.obj [("field", .s name), ("size", .i 100)]) := by
  unfold tfFacetFilter
  split
  · rw [dictGet_dictSet_ne _ _ (by decide)]
    exact tfGlobal_get_terms name extra
  · exact tfGlobal_get_terms name extra

theorem tfGlobal_get_global (name : String) (extra : List (String × Val)) :
    dictGet (tfGlobal name extra) "global"
      = (if pyTruthy ((dictGet extra "global_scope").getD (.b false))
         then some (.b true) else none) := by
  unfold tfGlobal
  split
  · exact dictGet_dictSet_self _ _ _
  · rfl

theorem tfFacetFilter_get_global (name : String)
    (extra : List (String × Val)) :
    dictGet (tfFacetFilter name extra) "global"
      = (if pyTruthy ((dictGet extra "global_scope").getD (.b false))
         then some (.b true) else none) := by
  unfold tfFacetFilter
  split
  · rw [dictGet_dictSet_ne _ _ (by decide)]
    exact tfGlobal_get_global name extra
  · exact tfGlobal_get_global name extra

theorem tfFacetFilter_get_ff (name : String) (extra : List (String × Val)) :
    dictGet (tfFacetFilter name extra) "facet_filter"
      = dictGet extra "facet_filter" := by
  have hffextra : dictGet extra "facet_filter"
      = dictGet (dictRemove extra "global_scope") "facet_filter" :=
    (dictGet_dictRemove_ne extra (by decide)).symm
  unfold tfFacetFilter
  split
  · rename_i ffv hff
    rw [dictGet_dictSet_self, hffextra, hff]
  · rename_i hff
    rw [hffextra, hff]
    unfold tfGlobal
    split
    · rw [dictGet_dictSet_ne _ _ (by decide)]
      rfl
    · rfl

/-- What `buildTermsFacet` puts at its three special keys: the `terms`
dict is the field/size-100 dict updated with the leftover extra options;
`global` is present (as `True`) exactly when the popped `global_scope` was
truthy; `facet_filter` is copied from the extra options. -/
theorem buildTermsFacet_parts (name : String) (extra : List (String × Val)) :
    dictGet (objPairs (buildTermsFacet name extra)) "terms"
      = some (.obj (dictUpdate [("field", .s name), ("size", .i 100)]
          (dictRemove (dictRemove extra "global_scope") "facet_filter")))
    ∧ dictGet (objPairs (buildTermsFacet name extra)) "global"
      = (if pyTruthy ((dictGet extra "global_scope").getD (.b false))
         then some (.b true) else none)
    ∧ dictGet (objPairs (buildTermsFacet name extra)) "facet_filter"
      = dictGet extra "facet_filter" := by
  unfold buildTermsFacet
  rw [objPairs_obj, tfFacetFilter_get_terms]
  refine ⟨?_, ?_, ?_⟩
  · rw [dictGet_dictSet_self]
    rfl
  · rw [dictGet_dictSet_ne _ _ (by decide)]
    exact tfFacetFilter_get_global name extra
  · rw [dictGet_dictSet_ne _ _ (by decide)]
    exact tfFacetFilter_get_ff name extra

/-! ### How each block of `build_search_kwargs` treats the other keys -/

theorem dictGet_fieldsStep_ne (a : SearchKwargsArgs)
    (d : List (String × Val)) {k : String} (h : k ≠ "fields") :
    dictGet (fieldsStep a d) k = dictGet d k := by
  unfold fieldsStep
  split
  · rfl
  · exact dictGet_dictSet_ne _ _ h

theorem dictGet_sortStep_ne (a : SearchKwargsArgs)
    (d : List (String × Val)) {k : String} (h : k ≠ "sort") :
    dictGet (sortStep a d) k = dictGet d k := by
  unfold sortStep
  split
  · rfl
  · exact dictGet_dictSet_ne _ _ h

theorem dictGet_highlightStep_ne (cfg : BackendConfig) (a : SearchKwargsArgs)
    (d : List (String × Val)) {k : String} (h : k ≠ "highlight") :
    dictGet (highlightStep cfg a d) k = dictGet d k := by
  unfold highlightStep
  split
  · exact dictGet_dictSet_ne _ _ h
  · rfl

theorem dictGet_suggestStep_ne (cfg : BackendConfig) (a : SearchKwargsArgs)
    (d : List (String × Val)) {k : String} (h : k ≠ "suggest") :
    dictGet (suggestStep cfg a d) k = dictGet d k := by
  unfold suggestStep
  split
  · exact dictGet_dictSet_ne _ _ h
  · rfl

theorem dictGet_facetFold_ne {β : Type} (g : String × β → Val)
    (l : List (String × β)) (d : List (String × Val)) {k : String}
    (h : k ≠ "facets") :
    dictGet (l.foldl (fun kw nb => dictSetIn kw "facets" nb.1 (g nb)) d) k
      = dictGet d k := by
  induction l generalizing d with
  | nil => rfl
  | cons x xs ih =>
    rw [List.foldl_cons, ih]
    exact dictGet_dictSetIn_ne _ _ _ h

theorem dictGet_facetsStep_ne (a : SearchKwargsArgs)
    (d : List (String × Val)) {k : String} (h : k ≠ "facets") :
    dictGet (facetsStep a d) k = dictGet d k := by
  unfold facetsStep
  split
  · rfl
  · exact
      ((dictGet_facetFold_ne (fun nb => buildTermsFacet nb.1 nb.2) _ _
        h).trans (dictGet_dictSetDefault_ne _ _ h))

theorem dictGet_dateFacetsStep_ne (a : SearchKwargsArgs)
    (d : List (String × Val)) {k : String} (h : k ≠ "facets") :
    dictGet (dateFacetsStep a d) k = dictGet d k := by
  unfold dateFacetsStep
  split
  · rfl
  · exact
      ((dictGet_facetFold_ne (fun nb => buildDateFacet nb.1 nb.2) _ _
        h).trans (dictGet_dictSetDefault_ne _ _ h))

theorem dictGet_queryFacetsStep_ne (a : SearchKwargsArgs)
    (d : List (String × Val)) {k : String} (h : k ≠ "facets") :
    dictGet (queryFacetsStep a d) k = dictGet d k := by
  unfold queryFacetsStep
  split
  · rfl
  · exact
      ((dictGet_facetFold_ne (fun nb => buildQueryFacet nb.2) _ _
        h).trans (dictGet_dictSetDefault_ne _ _ h))

theorem dictGet_filtersStep_ne (filters : List Val)
    (d : List (String × Val)) {k : String} (h : k ≠ "query") :
    dictGet (filtersStep filters d) k = dictGet d k := by
  unfold filtersStep
  split
  · rfl
  · rw [dictGet_dictSet_ne _ _ h]
    exact dictGet_dictRemove_ne _ h
  · rw [dictGet_dictSet_ne _ _ h]
    exact dictGet_dictRemove_ne _ h

/-- Nothing between lines 85 and 275 touches the `query` binding: the
kwargs still hold the base query just before the filter combination. -/
theorem kwargsBeforeFilters_query (cfg : BackendConfig)
    (a : SearchKwargsArgs) :
    dictGet (kwargsBeforeFilters cfg a) "query"
      = some (baseQuery cfg a.query_string) := by
  unfold kwargsBeforeFilters
  rw [dictGet_queryFacetsStep_ne _ _ (by decide),
      dictGet_dateFacetsStep_ne _ _ (by decide),
      dictGet_facetsStep_ne _ _ (by decide),
      dictGet_suggestStep_ne _ _ _ (by decide),
      dictGet_highlightStep_ne _ _ _ (by decide),
      dictGet_sortStep_ne _ _ (by decide),
      dictGet_fieldsStep_ne _ _ (by decide),
      dictGet_cons]
  simp

/-! ### Claim theorems -/

/-- C2: for every compiled search request, zero accumulated filters leave
the base query unwrapped (no `filtered` key anywhere at the top of the
query clause); exactly one filter wraps base query and filter together
under `filtered` with the filter attached directly; two or more filters
are combined under a boolean `must` group inside the `filtered` wrapper. -/
theorem claim_C2_filter_combination (cfg : BackendConfig)
    (a : SearchKwargsArgs) :
    (buildFilters cfg a = [] →
      dictGet (objPairs (buildSearchKwargs cfg a)) "query"
        = some (baseQuery cfg a.query_string)
      ∧ dictGet (objPairs (baseQuery cfg a.query_string)) "filtered" = none)
    ∧ (∀ f, buildFilters cfg a = [f] →
      dictGet (objPairs (buildSearchKwargs cfg a)) "query"
        = some (.obj [("filtered", .obj
            [("query", baseQuery cfg a.query_string), ("filter", f)])]))
    ∧ (∀ f1 f2 fs, buildFilters cfg a = f1 :: f2 :: fs →
      dictGet (objPairs (buildSearchKwargs cfg a)) "query"
        = some (.obj [("filtered", .obj
            [("query", baseQuery cfg a.query_string),
             ("filter", .obj [("bool", .obj
                [("must", .arr (f1 :: f2 :: fs))])])])])) := by
  refine ⟨fun h0 => ⟨?_, ?_⟩, fun f hf => ?_, fun f1 f2 fs hf => ?_⟩
  · unfold buildSearchKwargs
    rw [h0]
    exact kwargsBeforeFilters_query cfg a
  · unfold baseQuery
    split <;> rfl
  · unfold buildSearchKwargs
    rw [hf]
    simp only [filtersStep, objPairs]
    rw [dictGet_dictSet_self, kwargsBeforeFilters_query]
    rfl
  · unfold buildSearchKwargs
    rw [hf]
    simp only [filtersStep, objPairs]
    rw [dictGet_dictSet_self, kwargsBeforeFilters_query]
    rfl

/-- A backend configuration with the source's defaults, used to witness
the claim theorems on concrete inputs. -/
def cfgW : BackendConfig :=
  { contentField := "text"
    defaultOperator := "AND"
    fuzzyMinSim := 1 / 2
    fuzzyMaxExpansions := 50
    includeSpelling := false
    registeredModels := ["api.organisation"]
    limitToRegisteredDefault := true
    esVersionAtLeast100 := true }

/-- A call of `build_search_kwargs` with every optional argument at its
default. -/
def argsW : SearchKwargsArgs :=
  { query_string := "hello"
    sort_by := none
    fields := []
    highlight := false
    facets := none
    date_facets := none
    query_facets := none
    narrow_queries := none
    spelling_query := none
    within := none
    dwithin := none
    distance_point := none
    models := none
    limit_to_registered_models := some false }

theorem claim_C2_filter_combination_witness :
    (dictGet (objPairs (buildSearchKwargs cfgW argsW)) "query"
      = some (baseQuery cfgW "hello")
     ∧ dictGet (objPairs (baseQuery cfgW "hello")) "filtered" = none)
    ∧ dictGet (objPairs (buildSearchKwargs cfgW
        { argsW with narrow_queries := some ["q1"] })) "query"
      = some (.obj [("filtered", .obj
          [("query", baseQuery cfgW "hello"),
           ("filter", narrowFilter "q1")])])
    ∧ dictGet (objPairs (buildSearchKwargs cfgW
        { argsW with narrow_queries := some ["q1", "q2"] })) "query"
      = some (.obj [("filtered", .obj
          [("query", baseQuery cfgW "hello"),
           ("filter", .obj [("bool", .obj
              [("must", .arr [narrowFilter "q1", narrowFilter "q2"])])])])]) :=
  ⟨(claim_C2_filter_combination cfgW argsW).1 rfl,
   (claim_C2_filter_combination cfgW
     { argsW with narrow_queries := some ["q1"] }).2.1
     (narrowFilter "q1") rfl,
   (claim_C2_filter_combination cfgW
     { argsW with narrow_queries := some ["q1", "q2"] }).2.2
     (narrowFilter "q1") (narrowFilter "q2") [] rfl⟩

/-- C3: compiling any sort specification never raises; each requested
`(field, direction)` pair yields one entry of the emitted `sort` list, and
for the field `distance` that entry is a plain field sort with the
requested direction when no distance-anchor point was supplied (the source
merely warns), while a supplied anchor point yields a `_geo_distance`
clause with unit `km` anchored at that point's coordinates. -/
theorem claim_C3_distance_sort (cfg : BackendConfig) (a : SearchKwargsArgs)
    (sb : List (String × String)) (h : a.sort_by = some sb) :
    dictGet (objPairs (buildSearchKwargs cfg a)) "sort"
      = some (.arr (sb.map (buildSortEntry a.distance_point)))
    ∧ (∀ dir, buildSortEntry none ("distance", dir)
        = .obj [("distance", .obj [("order", .s dir)])])
    ∧ (∀ dp dir, buildSortEntry (some dp) ("distance", dir)
        = .obj [("_geo_distance", .obj
            [(dp.field, .arr [.r dp.point.x, .r dp.point.y]),
             ("order", .s dir), ("unit", .s "km")])]) := by
  refine ⟨?_, fun dir => rfl, fun dp dir => rfl⟩
  unfold buildSearchKwargs
  simp only [objPairs]
  rw [dictGet_filtersStep_ne _ _ (by decide)]
  unfold kwargsBeforeFilters
  rw [dictGet_queryFacetsStep_ne _ _ (by decide),
      dictGet_dateFacetsStep_ne _ _ (by decide),
      dictGet_facetsStep_ne _ _ (by decide),
      dictGet_suggestStep_ne _ _ _ (by decide),
      dictGet_highlightStep_ne _ _ _ (by decide)]
  unfold sortStep
  rw [h]
  exact dictGet_dictSet_self _ _ _

theorem mem_searchTermStep {d : ValidatedSearchData} {sqs : SQS} {op : SQSOp}
    (h : op ∈ searchTermStep d sqs) : op ∈ sqs ∨ op.isGeo = false := by
  unfold searchTermStep at h
  split at h
  · split at h
    · exact Or.inl h
    · rcases List.mem_append.mp h with h | h
      · exact Or.inl h
      · rcases List.mem_singleton.mp h with rfl
        exact Or.inr rfl
  · exact Or.inl h

theorem mem_categoriesStep {d : ValidatedSearchData} {sqs : SQS} {op : SQSOp}
    (h : op ∈ categoriesStep d sqs) : op ∈ sqs ∨ op.isGeo = false := by
  unfold categoriesStep at h
  split at h
  · split at h
    · exact Or.inl h
    · rcases List.mem_append.mp h with h | h
      · exact Or.inl h
      · rcases List.mem_singleton.mp h with rfl
        exact Or.inr rfl
  · exact Or.inl h

theorem mem_countryStep {d : ValidatedSearchData} {sqs : SQS} {op : SQSOp}
    (h : op ∈ countryStep d sqs) : op ∈ sqs ∨ op.isGeo = false := by
  unfold countryStep at h
  split at h
  · split at h
    · exact Or.inl h
    · rcases List.mem_append.mp h with h | h
      · exact Or.inl h
      · rcases List.mem_singleton.mp h with rfl
        exact Or.inr rfl
  · exact Or.inl h

theorem locationStep_none {d : ValidatedSearchData} (sqs : SQS)
    (h : d.location = none) : locationStep d sqs = sqs := by
  unfold locationStep
  rw [h]

/-- C9: a validated request that carries a radius but no location adds no
geo-distance restriction, distance annotation or distance ordering to the
query set, and compiles to exactly the query set the same request without
the radius compiles to. -/
theorem claim_C9_radius_ignored_without_location (d : ValidatedSearchData)
    (sqs : SQS) (r : Int) (hloc : d.location = none)
    (hrad : d.radius = some r) :
    perform_search d sqs = perform_search { d with radius := none } sqs
    ∧ (∀ op ∈ perform_search d sqs, op ∈ sqs ∨ op.isGeo = false) := by
  constructor
  · unfold perform_search
    rw [locationStep_none _ hloc, locationStep_none _ (by simpa using hloc)]
    rfl
  · intro op hop
    unfold perform_search at hop
    rw [locationStep_none _ hloc] at hop
    rcases mem_countryStep hop with h | h
    · rcases mem_categoriesStep h with h' | h'
      · exact mem_searchTermStep h'
      · exact Or.inr h'
    · exact Or.inr h

theorem claim_C9_radius_ignored_without_location_witness :
    perform_search
        { location := none, radius := some 5, place_name := none
          search_term := some "care", country := none, categories := none }
        []
      = perform_search
        { location := none, radius := none, place_name := none
          search_term := some "care", country := none, categories := none }
        []
    ∧ ∀ op ∈ perform_search
        { location := none, radius := some 5, place_name := none
          search_term := some "care", country := none, categories := none }
        ([] : SQS), op ∈ ([] : SQS) ∨ op.isGeo = false :=
  ⟨(claim_C9_radius_ignored_without_location _ [] 5 rfl rfl).1,
   (claim_C9_radius_ignored_without_location _ [] 5 rfl rfl).2⟩

theorem resolveAll_some_length :
    ∀ {sqs : List SearchResult}
      {l : List (Organisation × Option PyDistance)},
    resolveAll sqs = some l → l.length = sqs.length := by
  intro sqs
  induction sqs with
  | nil =>
    intro l h
    simp only [resolveAll, Option.some.injEq] at h
    simp [← h]
  | cons x xs ih =>
    intro l h
    unfold resolveAll at h
    cases hx : resolveHit x with
    | none => rw [hx] at h; simp at h
    | some y =>
      cases hxs : resolveAll xs with
      | none => rw [hx, hxs] at h; simp at h
      | some ys =>
        rw [hx, hxs] at h
        simp only [Option.some.injEq] at h
        rw [← h]
        simp [ih hxs]

theorem format_results_length_le (sqs : List SearchResult) :
    (format_results sqs).length ≤ sqs.length := by
  unfold format_results
  cases h : resolveAll sqs with
  | none => simp
  | some l =>
    have hlen : l.length = sqs.length := resolveAll_some_length h
    simp only [Option.getD_some]
    split
    · simp
    · rename_i heq
      rw [List.length_map]
      calc (List.map (fun od => (annotateDistance od.1 od.2, od.2)) l).length
          = l.length := List.length_map _ _
        _ = sqs.length := hlen
        _ ≤ sqs.length := le_refl _

theorem resolveAll_eq_none_of_failed :
    ∀ {sqs : List SearchResult}, (∃ r ∈ sqs, r.object = none) →
    resolveAll sqs = none := by
  intro sqs
  induction sqs with
  | nil => intro h; simp at h
  | cons x xs ih =>
    intro h
    rcases h with ⟨r, hr, hobj⟩
    rcases List.mem_cons.mp hr with rfl | hmem
    · unfold resolveAll
      rw [resolveHit, hobj]
      rfl
    · unfold resolveAll
      rw [ih ⟨r, hmem, hobj⟩]
      cases resolveHit x <;> rfl

theorem resolveAll_eq_some_of_all :
    ∀ {sqs : List SearchResult}, (∀ r ∈ sqs, r.object ≠ none) →
    resolveAll sqs
      = some (sqs.map (fun r => (r.object.getD default, r.distance))) := by
  intro sqs
  induction sqs with
  | nil => intro _; rfl
  | cons x xs ih =>
    intro h
    unfold resolveAll
    cases hx : x.object with
    | none => exact absurd hx (h x (List.mem_cons_self x xs))
    | some o =>
      rw [resolveHit, hx]
      rw [ih (fun r hr => h r (List.mem_cons_of_mem x hr))]
      simp [hx]

/-- C1 (amended): `format_results` never raises, but its degraded mode is
coarser than per-hit skipping: the `try` wraps the whole comprehension, so
as soon as one hit fails to resolve the entire batch is dropped and the
empty list is returned — the hits that did resolve are not returned.  When
every hit resolves, the backing entities are returned in hit order, each
annotated with its distance. -/
theorem claim_C1_degraded_formatting (sqs : List SearchResult) :
    ((∃ r ∈ sqs, r.object = none) → format_results sqs = [])
    ∧ ((∀ r ∈ sqs, r.object ≠ none) →
        format_results sqs
          = sqs.map (fun r =>
              annotateDistance (r.object.getD default) r.distance)) := by
  constructor
  · intro h
    unfold format_results
    rw [resolveAll_eq_none_of_failed h]
    rfl
  · intro h
    unfold format_results
    rw [resolveAll_eq_some_of_all h]
    simp only [Option.getD_some, List.map_map]
    cases sqs with
    | nil => rfl
    | cons x xs => simp [Function.comp]

/-- An organisation used in the concrete formatter scenarios. -/
def orgW : Organisation := { oid := 1, name := "Org One", distanceAttr := none }

/-- C1 counterexample: with one resolving hit followed by one orphaned hit,
`format_results` returns the empty list — not the singleton list holding
the resolving hit's entity that per-hit skipping would produce. -/
theorem claim_C1_counterexample :
    format_results
        [{ object := some orgW, distance := none },
         { object := none, distance := none }] = []
    ∧ format_results
        [{ object := some orgW, distance := none },
         { object := none, distance := none }] ≠ [orgW] := by
  constructor
  · rfl
  · decide

theorem claim_C1_degraded_formatting_witness :
    format_results
        [{ object := some orgW, distance := none },
         { object := none, distance := none }] = []
    ∧ format_results [{ object := some orgW, distance := none }]
      = [annotateDistance orgW none] :=
  ⟨(claim_C1_degraded_formatting _).1
     ⟨{ object := none, distance := none }, by decide, rfl⟩,
   (claim_C1_degraded_formatting
      [{ object := some orgW, distance := none }]).2 (by decide)⟩

/-- C10: a validated search request loads at most 20 hits for formatting
(the `Search` view invokes `load_search_results` with the default
`limit=20`), so the endpoint never returns more than 20 organisation
summaries, whatever hit list the engine produces. -/
theorem claim_C10_limit_twenty (loadAll : SQS → List SearchResult)
    (d : ValidatedSearchData) (sqs : SQS) :
    (load_search_results loadAll d sqs 20).length ≤ 20
    ∧ (searchViewResults loadAll d sqs).length ≤ 20 := by
  have hload : (load_search_results loadAll d sqs 20).length ≤ 20 := by
    unfold load_search_results
    rw [List.length_take]
    exact min_le_left _ _
  exact ⟨hload,
    le_trans (format_results_length_le _) hload⟩

theorem pyStartsWith_paren (t : String) : pyStartsWith ("(" ++ t) "(" = true := by
  show isPre ['('] ('(' :: t.data) = true
  simp [isPre]

/-- C4 (amended): for the three text operators on a post-processed input
not marked exact, `build_query_fragment` splits the prepared value on the
single space character (other whitespace stays inside its term, and
consecutive spaces contribute empty terms), maps every term through the
operator's template, and joins two or more terms with `" AND "` inside
parentheses, in term order; the parenthesised fragment is not re-wrapped
before the field prefix is attached. -/
theorem claim_C4_multiword_and_join (cfg : QueryCfg)
    (field filter_type : String) (value : HInput) (s : String)
    (tmpl : String → String)
    (hops : filter_type = "contains" ∨ filter_type = "startswith"
      ∨ filter_type = "fuzzy")
    (htm : filterTemplates filter_type = some tmpl)
    (hpp : value.post_process = true)
    (hname : value.input_type_name ≠ "exact")
    (hraw : value.isRaw = false)
    (hprep : value.prepared = .str s)
    (hmulti : 2 ≤ (pySplit s ' ').length) :
    rawFragment filter_type value
      = some ("(" ++ String.intercalate " AND "
          ((pySplit s ' ').map (fun t => tmpl (fromPython t))) ++ ")")
    ∧ build_query_fragment cfg field filter_type value
      = some ((if field = "content" then "" else cfg.indexFieldname field ++ ":")
          ++ ("(" ++ String.intercalate " AND "
              ((pySplit s ' ').map (fun t => tmpl (fromPython t))) ++ ")")) := by
  have hfrag : rawFragment filter_type value
      = some ("(" ++ String.intercalate " AND "
          ((pySplit s ' ').map (fun t => tmpl (fromPython t))) ++ ")") := by
    unfold rawFragment
    rw [hpp]
    rw [if_neg (by simp)]
    rw [if_pos hops, if_neg hname, htm, hprep]
    simp only []
    rw [if_neg (by rw [List.length_map]; omega)]
  refine ⟨hfrag, ?_⟩
  unfold build_query_fragment
  rw [hfrag]
  simp only []
  have hstart : pyStartsWith
      ("(" ++ String.intercalate " AND "
        ((pySplit s ' ').map (fun t => tmpl (fromPython t))) ++ ")") "(" = true := by
    rw [String.append_assoc]
    exact pyStartsWith_paren _
  have hcond : ¬ (pyStartsWith
      ("(" ++ String.intercalate " AND "
        ((pySplit s ' ').map (fun t => tmpl (fromPython t))) ++ ")") "(" = false
      ∧ pyEndsWith
      ("(" ++ String.intercalate " AND "
        ((pySplit s ' ').map (fun t => tmpl (fromPython t))) ++ ")") ")" = false) := by
    rw [hstart]
    simp
  by_cases houter :
      ("(" ++ String.intercalate " AND "
        ((pySplit s ' ').map (fun t => tmpl (fromPython t))) ++ ")").length ≠ 0
      ∧ value.isRaw = false
  · rw [if_pos houter, if_neg hcond]
  · rw [if_neg houter]

/-- The `get_index_fieldname` mapping used in concrete fragment scenarios:
the identity, as for an index without field renames. -/
def qcfgW : QueryCfg := { indexFieldname := fun f => f }

/-- A `Clean`-wrapped string input, the shape `build_query_fragment` gives
any plain string value. -/
def cleanInput (s : String) : HInput :=
  { input_type_name := "clean", post_process := true, isRaw := false,
    prepared := .str s }

/-- C4 counterexample: the source splits on the space character only, not
on whitespace.  For the value `"a b\tc"` (which contains a space) the
emitted fragment keeps the tab inside the second term, instead of the
three-term fragment a whitespace split would give. -/
theorem claim_C4_counterexample :
    build_query_fragment qcfgW "content" "contains" (cleanInput "a b\tc")
      = some "(a AND b\tc)"
    ∧ build_query_fragment qcfgW "content" "contains" (cleanInput "a b\tc")
      ≠ some "(a AND b AND c)" := by
  constructor
  · decide
  · decide

theorem claim_C4_multiword_and_join_witness :
    rawFragment "startswith" (cleanInput "first aid")
      = some ("(" ++ String.intercalate " AND "
          ((pySplit "first aid" ' ').map (fun t => (fromPython t) ++ "*")) ++ ")")
    ∧ build_query_fragment qcfgW "name" "startswith" (cleanInput "first aid")
      = some ((if "name" = "content" then ""
               else qcfgW.indexFieldname "name" ++ ":")
          ++ ("(" ++ String.intercalate " AND "
              ((pySplit "first aid" ' ').map (fun t => (fromPython t) ++ "*"))
              ++ ")")) :=
  claim_C4_multiword_and_join qcfgW "name" "startswith"
    (cleanInput "first aid") "first aid" (fun s => s ++ "*")
    (Or.inr (Or.inl rfl)) rfl rfl (by decide) rfl rfl (by decide)

/-- C5 (amended): a non-empty fragment of a non-`Raw` input is wrapped in
parentheses before the field prefix is attached unless it already starts
with `(` or already ends with `)` — a weaker guard than "already fully
parenthesised": a fragment that merely ends with `)` (e.g. an escaped
trailing parenthesis) is left unwrapped. -/
theorem claim_C5_paren_wrapping (cfg : QueryCfg)
    (field filter_type : String) (value : HInput) (frag : String)
    (hfrag : rawFragment filter_type value = some frag)
    (hraw : value.isRaw = false)
    (hne : frag ≠ "") :
    build_query_fragment cfg field filter_type value
      = some ((if field = "content" then "" else cfg.indexFieldname field ++ ":")
          ++ (if pyStartsWith frag "(" = false ∧ pyEndsWith frag ")" = false
              then "(" ++ frag ++ ")" else frag)) := by
  have hlen : frag.length ≠ 0 := by
    intro h0
    exact hne (by
      have : frag.data.length = 0 := h0
      cases hd : frag.data with
      | nil => exact String.ext hd
      | cons c cs => rw [hd] at this; simp at this)
  unfold build_query_fragment
  rw [hfrag]
  simp only []
  have hc : frag.length ≠ 0 ∧ value.isRaw = false := ⟨hlen, hraw⟩
  rw [if_pos hc]

/-- C5 counterexample: the `contains` fragment for the escaped value
`foo\)` is non-empty, not `Raw`, and not parenthesised, yet it is returned
unwrapped because it ends with `)`. -/
theorem claim_C5_counterexample :
    build_query_fragment qcfgW "content" "contains" (cleanInput "foo\\)")
      = some "foo\\)"
    ∧ pyStartsWith "foo\\)" "(" = false
    ∧ "foo\\)" ≠ "" := by
  refine ⟨by decide, by decide, by decide⟩

theorem claim_C5_paren_wrapping_witness :
    build_query_fragment qcfgW "name" "gt"
      { input_type_name := "clean", post_process := true, isRaw := false,
        prepared := .str "v" }
      = some ((if "name" = "content" then ""
               else qcfgW.indexFieldname "name" ++ ":")
          ++ (if pyStartsWith "\x7b\"v\" TO *\x7d" "(" = false
                ∧ pyEndsWith "\x7b\"v\" TO *\x7d" ")" = false
              then "(" ++ "\x7b\"v\" TO *\x7d" ++ ")" else "\x7b\"v\" TO *\x7d")) :=
  claim_C5_paren_wrapping qcfgW "name" "gt"
    { input_type_name := "clean", post_process := true, isRaw := false,
      prepared := .str "v" }
    "\x7b\"v\" TO *\x7d" (by decide) rfl (by decide)

theorem claim_C3_distance_sort_witness :
    dictGet (objPairs (buildSearchKwargs cfgW
        { argsW with sort_by := some [("distance", "asc")] })) "sort"
      = some (.arr ([("distance", "asc")].map (buildSortEntry none)))
    ∧ buildSortEntry none ("distance", "asc")
        = .obj [("distance", .obj [("order", .s "asc")])]
    ∧ buildSortEntry (some ⟨"location", ⟨18, -33⟩⟩) ("distance", "asc")
        = .obj [("_geo_distance", .obj
            [("location", .arr [.r 18, .r (-33)]),
             ("order", .s "asc"), ("unit", .s "km")])] :=
  ⟨(claim_C3_distance_sort cfgW
      { argsW with sort_by := some [("distance", "asc")] }
      [("distance", "asc")] rfl).1,
   (claim_C3_distance_sort cfgW
      { argsW with sort_by := some [("distance", "asc")] }
      [("distance", "asc")] rfl).2.1 "asc",
   (claim_C3_distance_sort cfgW
      { argsW with sort_by := some [("distance", "asc")] }
      [("distance", "asc")] rfl).2.2 ⟨"location", ⟨18, -33⟩⟩ "asc"⟩

/-- C6 (amended): an explicit non-empty models list is restricted to
exactly the given content types in sorted order — but `sorted(...)` does
not deduplicate, so duplicates supplied by the caller survive (callers
normally pass a set, which cannot contain them).  Otherwise, when limiting
to registered models is in force (the explicit argument, defaulting to the
`HAYSTACK_LIMIT_TO_REGISTERED_MODELS` setting, itself defaulting to true),
the filter carries the full `build_models_list()` output when that list is
non-empty; with limiting disabled no model-type filter is added. -/
theorem claim_C6_model_restriction (cfg : BackendConfig)
    (a : SearchKwargsArgs) :
    (∀ m ms, a.models = some (m :: ms) →
      modelChoices cfg a.models a.limit_to_registered_models
        = sortStrings (m :: ms)
      ∧ List.Sorted strDataLe (sortStrings (m :: ms))
      ∧ (sortStrings (m :: ms)).Perm (m :: ms)
      ∧ buildFilters cfg a
          = .obj [("terms", .obj
              [(DJANGO_CT, .arr ((sortStrings (m :: ms)).map .s))])]
            :: nonModelFilters cfg a)
    ∧ (a.models = none ∨ a.models = some [] →
        (a.limit_to_registered_models.getD cfg.limitToRegisteredDefault
            = true →
          modelChoices cfg a.models a.limit_to_registered_models
            = cfg.registeredModels
          ∧ (cfg.registeredModels ≠ [] →
            buildFilters cfg a
              = .obj [("terms", .obj
                  [(DJANGO_CT, .arr (cfg.registeredModels.map .s))])]
                :: nonModelFilters cfg a))
        ∧ (a.limit_to_registered_models.getD cfg.limitToRegisteredDefault
            = false →
          buildFilters cfg a = nonModelFilters cfg a)) := by
  constructor
  · intro m ms h
    have hmc : modelChoices cfg a.models a.limit_to_registered_models
        = sortStrings (m :: ms) := by
      unfold modelChoices
      rw [h]
    have hpos : (sortStrings (m :: ms)).length > 0 := by
      unfold sortStrings
      rw [(List.perm_insertionSort strDataLe (m :: ms)).length_eq]
      simp
    refine ⟨hmc, List.sorted_insertionSort strDataLe (m :: ms),
      List.perm_insertionSort strDataLe (m :: ms), ?_⟩
    unfold buildFilters
    rw [hmc, if_pos hpos, List.singleton_append]
  · intro hm
    have hmc : modelChoices cfg a.models a.limit_to_registered_models
        = (if a.limit_to_registered_models.getD cfg.limitToRegisteredDefault
           then cfg.registeredModels else []) := by
      rcases hm with h | h <;> (unfold modelChoices; rw [h])
    constructor
    · intro hlim
      rw [hlim, if_pos rfl] at hmc
      refine ⟨hmc, fun hne => ?_⟩
      have hpos : cfg.registeredModels.length > 0 := by
        simp only [gt_iff_lt]
        exact List.length_pos.mpr hne
      unfold buildFilters
      rw [hmc, if_pos hpos, List.singleton_append]
    · intro hlim
      rw [hlim] at hmc
      simp only [Bool.false_eq_true, if_false] at hmc
      unfold buildFilters
      rw [hmc]
      simp

/-- C6 counterexample: a models list with a duplicate content type keeps
the duplicate in the emitted `django_ct` terms filter — the restriction is
sorted but not deduplicated. -/
theorem claim_C6_counterexample :
    buildFilters cfgW { argsW with models := some ["api.a", "api.a"] }
      = [.obj [("terms", .obj
          [("django_ct", .arr [.s "api.a", .s "api.a"])])]]
    ∧ [Val.s "api.a", Val.s "api.a"] ≠ [Val.s "api.a"] := by
  constructor
  · rfl
  · intro h
    have hl := congrArg List.length h
    simp at hl

theorem claim_C6_model_restriction_witness :
    buildFilters cfgW { argsW with models := some ["api.b", "api.a"] }
      = .obj [("terms", .obj
          [(DJANGO_CT, .arr ((sortStrings ["api.b", "api.a"]).map .s))])]
        :: nonModelFilters cfgW { argsW with models := some ["api.b", "api.a"] }
    ∧ buildFilters cfgW { argsW with limit_to_registered_models := some true }
      = .obj [("terms", .obj
          [(DJANGO_CT, .arr (cfgW.registeredModels.map .s))])]
        :: nonModelFilters cfgW
            { argsW with limit_to_registered_models := some true }
    ∧ buildFilters cfgW argsW = nonModelFilters cfgW argsW :=
  ⟨((claim_C6_model_restriction cfgW
      { argsW with models := some ["api.b", "api.a"] }).1
      "api.b" ["api.a"] rfl).2.2.2,
   (((claim_C6_model_restriction cfgW
      { argsW with limit_to_registered_models := some true }).2
      (Or.inl rfl)).1 rfl).2 (by decide),
   ((claim_C6_model_restriction cfgW argsW).2 (Or.inl rfl)).2 rfl⟩

theorem facetsStep_none (a : SearchKwargsArgs) (d : List (String × Val))
    (h : a.facets = none) : facetsStep a d = d := by
  unfold facetsStep
  rw [h]

theorem dateFacetsStep_none (a : SearchKwargsArgs) (d : List (String × Val))
    (h : a.date_facets = none) : dateFacetsStep a d = d := by
  unfold dateFacetsStep
  rw [h]

theorem queryFacetsStep_none (a : SearchKwargsArgs) (d : List (String × Val))
    (h : a.query_facets = none) : queryFacetsStep a d = d := by
  unfold queryFacetsStep
  rw [h]

/-- Before the facet blocks run, the kwargs contain no `facets` binding. -/
theorem kwargsPreFacets_facets_none (cfg : BackendConfig)
    (a : SearchKwargsArgs) :
    dictGet (suggestStep cfg a (highlightStep cfg a (sortStep a
      (fieldsStep a [("query", baseQuery cfg a.query_string)])))) "facets"
      = none := by
  rw [dictGet_suggestStep_ne _ _ _ (by decide),
      dictGet_highlightStep_ne _ _ _ (by decide),
      dictGet_sortStep_ne _ _ (by decide),
      dictGet_fieldsStep_ne _ _ (by decide),
      dictGet_cons]
  simp [dictGet_nil]

theorem facetsStep_single (a : SearchKwargsArgs) (d : List (String × Val))
    (name : String) (extra : List (String × Val))
    (hf : a.facets = some [(name, extra)])
    (hd : dictGet d "facets" = none) :
    dictGet (facetsStep a d) "facets"
      = some (.obj [(name, buildTermsFacet name extra)]) := by
  unfold facetsStep
  rw [hf]
  show dictGet (List.foldl
      (fun kw nb => dictSetIn kw "facets" nb.1 (buildTermsFacet nb.1 nb.2))
      (dictSetDefault d "facets" (.obj [])) [(name, extra)]) "facets"
    = some (.obj [(name, buildTermsFacet name extra)])
  rw [List.foldl_cons, List.foldl_nil]
  have hset : dictSetDefault d "facets" (.obj [])
      = d ++ [("facets", .obj [])] := by
    unfold dictSetDefault
    rw [dictHas_eq_false_of_get_none hd]
    rfl
  rw [hset]
  have hget : dictGet (d ++ [("facets", Val.obj [])]) "facets"
      = some (.obj []) := by
    rw [dictGet_append, hd]
    rfl
  unfold dictSetIn
  rw [hget]
  exact dictGet_dictSet_self _ _ _

theorem dateFacetsStep_single (a : SearchKwargsArgs)
    (d : List (String × Val)) (name : String) (opts : DateFacetOpts)
    (hf : a.date_facets = some [(name, opts)])
    (hd : dictGet d "facets" = none) :
    dictGet (dateFacetsStep a d) "facets"
      = some (.obj [(name, buildDateFacet name opts)]) := by
  unfold dateFacetsStep
  rw [hf]
  show dictGet (List.foldl
      (fun kw nb => dictSetIn kw "facets" nb.1 (buildDateFacet nb.1 nb.2))
      (dictSetDefault d "facets" (.obj [])) [(name, opts)]) "facets"
    = some (.obj [(name, buildDateFacet name opts)])
  rw [List.foldl_cons, List.foldl_nil]
  have hset : dictSetDefault d "facets" (.obj [])
      = d ++ [("facets", .obj [])] := by
    unfold dictSetDefault
    rw [dictHas_eq_false_of_get_none hd]
    rfl
  rw [hset]
  have hget : dictGet (d ++ [("facets", Val.obj [])]) "facets"
      = some (.obj []) := by
    rw [dictGet_append, hd]
    rfl
  unfold dictSetIn
  rw [hget]
  exact dictGet_dictSet_self _ _ _

/-- C7 (amended): for a requested terms facet, `build_search_kwargs` emits
the clause built by `buildTermsFacet`, whose terms page size is 100 only by
default — a `size` among the extra options overrides it with no cap; the
facet-level `global` flag is present exactly when the popped `global_scope`
is truthy; a facet-level filter and the remaining extra options are merged
into the clause. -/
theorem claim_C7_terms_facet_options (cfg : BackendConfig)
    (a : SearchKwargsArgs) (name : String) (extra : List (String × Val))
    (hf : a.facets = some [(name, extra)])
    (hdf : a.date_facets = none) (hqf : a.query_facets = none) :
    dictGet (objPairs (buildSearchKwargs cfg a)) "facets"
      = some (.obj [(name, buildTermsFacet name extra)])
    ∧ (dictGet extra "size" = none →
        dictGet (objPairs ((dictGet (objPairs (buildTermsFacet name extra))
          "terms").getD .vnull)) "size" = some (.i 100))
    ∧ (∀ k v, (extra.map Prod.fst).Nodup → k ≠ "global_scope" →
        k ≠ "facet_filter" → dictGet extra k = some v →
        dictGet (objPairs ((dictGet (objPairs (buildTermsFacet name extra))
          "terms").getD .vnull)) k = some v)
    ∧ dictHas (objPairs (buildTermsFacet name extra)) "global"
        = pyTruthy ((dictGet extra "global_scope").getD (.b false))
    ∧ dictGet (objPairs (buildTermsFacet name extra)) "facet_filter"
        = dictGet extra "facet_filter" := by
  obtain ⟨hterms, hglobal, hfftop⟩ := buildTermsFacet_parts name extra
  refine ⟨?_, ?_, ?_, ?_, hfftop⟩
  · unfold buildSearchKwargs
    rw [objPairs_obj, dictGet_filtersStep_ne _ _ (by decide)]
    unfold kwargsBeforeFilters
    rw [queryFacetsStep_none _ _ hqf, dateFacetsStep_none _ _ hdf]
    exact facetsStep_single a _ name extra hf
      (kwargsPreFacets_facets_none cfg a)
  · intro hsize
    rw [hterms, Option.getD_some, objPairs_obj]
    have h2 : dictGet (dictRemove (dictRemove extra "global_scope")
        "facet_filter") "size" = none := by
      rw [dictGet_dictRemove_ne _ (by decide),
          dictGet_dictRemove_ne _ (by decide)]
      exact hsize
    rw [dictGet_dictUpdate_of_get_none _ _ _ h2]
    rfl
  · intro k v hnd hk1 hk2 hkv
    rw [hterms, Option.getD_some, objPairs_obj]
    have h2 : dictGet (dictRemove (dictRemove extra "global_scope")
        "facet_filter") k = some v := by
      rw [dictGet_dictRemove_ne _ hk2, dictGet_dictRemove_ne _ hk1]
      exact hkv
    exact dictGet_dictUpdate_of_get_some _ _ k v
      (keys_dictRemove_nodup _ (keys_dictRemove_nodup _ hnd)) h2
  · rw [dictHas_eq_isSome, hglobal]
    by_cases hgs : pyTruthy ((dictGet extra "global_scope").getD (.b false))
    · rw [if_pos hgs, hgs]
      rfl
    · rw [if_neg hgs]
      exact (Bool.eq_false_iff.mpr hgs).symm

/-- C7 counterexample: a terms facet whose extra options carry
`size = 500` is emitted with a terms page size of 500 — the 100 is only a
default, not a cap. -/
theorem claim_C7_counterexample :
    dictGet (objPairs ((dictGet (objPairs (buildSearchKwargs cfgW
        { argsW with facets := some [("cat", [("size", Val.i 500)])] }))
        "facets").getD .vnull)) "cat"
      = some (buildTermsFacet "cat" [("size", Val.i 500)])
    ∧ buildTermsFacet "cat" [("size", Val.i 500)]
      = .obj [("terms", .obj [("field", .s "cat"), ("size", .i 500)])]
    ∧ (100 : Int) < 500 := by
  refine ⟨rfl, rfl, by decide⟩

theorem claim_C7_terms_facet_options_witness :
    dictGet (objPairs (buildSearchKwargs cfgW
        { argsW with facets := some [("cat", [("order", Val.s "term")])] }))
        "facets"
      = some (.obj [("cat", buildTermsFacet "cat" [("order", Val.s "term")])])
    ∧ dictGet (objPairs ((dictGet (objPairs (buildTermsFacet "cat"
        [("order", Val.s "term")])) "terms").getD .vnull)) "size"
      = some (.i 100)
    ∧ dictGet (objPairs ((dictGet (objPairs (buildTermsFacet "cat"
        [("order", Val.s "term")])) "terms").getD .vnull)) "order"
      = some (.s "term")
    ∧ dictHas (objPairs (buildTermsFacet "cat" [("order", Val.s "term")]))
        "global"
      = pyTruthy ((dictGet [("order", Val.s "term")] "global_scope").getD
          (.b false))
    ∧ dictGet (objPairs (buildTermsFacet "cat" [("order", Val.s "term")]))
        "facet_filter"
      = dictGet [("order", Val.s "term")] "facet_filter" :=
  have C := claim_C7_terms_facet_options cfgW
    { argsW with facets := some [("cat", [("order", Val.s "term")])] }
    "cat" [("order", Val.s "term")] rfl rfl rfl
  ⟨C.1, C.2.1 rfl,
   C.2.2.1 "order" (Val.s "term") (by decide) (by decide) (by decide) rfl,
   C.2.2.2.1, C.2.2.2.2⟩

/-- C8: the date-histogram facet clause carries the interval computed from
the gap unit and amount: the lower-cased unit name alone whenever that
unit is `month` or `year` (the amount is ignored there), and the amount
prefixed to the unit's first letter for any other unit with an amount
different from 1 (e.g. two weeks give `2w`). -/
theorem claim_C8_date_facet_interval (cfg : BackendConfig)
    (a : SearchKwargsArgs) (name : String) (opts : DateFacetOpts)
    (hfa : a.facets = none)
    (hdf : a.date_facets = some [(name, opts)])
    (hqf : a.query_facets = none) :
    dictGet (objPairs (buildSearchKwargs cfg a)) "facets"
      = some (.obj [(name, buildDateFacet name opts)])
    ∧ dictGet (objPairs (buildDateFacet name opts)) "date_histogram"
      = some (.obj [("field", .s name),
          ("interval", .s (dateFacetInterval opts))])
    ∧ (pyLower opts.gap_by = "month" ∨ pyLower opts.gap_by = "year" →
        dateFacetInterval opts = pyLower opts.gap_by)
    ∧ (pyLower opts.gap_by ≠ "month" → pyLower opts.gap_by ≠ "year" →
        opts.gap_amount.getD 1 ≠ 1 →
        dateFacetInterval opts
          = toString (opts.gap_amount.getD 1)
            ++ (pyLower opts.gap_by).take 1) := by
  refine ⟨?_, rfl, ?_, ?_⟩
  · unfold buildSearchKwargs
    rw [objPairs_obj, dictGet_filtersStep_ne _ _ (by decide)]
    unfold kwargsBeforeFilters
    rw [queryFacetsStep_none _ _ hqf]
    rw [facetsStep_none _ _ hfa]
    exact dateFacetsStep_single a _ name opts hdf
      (kwargsPreFacets_facets_none cfg a)
  · intro h
    unfold dateFacetInterval
    rcases h with h | h
    · rw [if_neg (by simp [h])]
    · rw [if_neg (by simp [h])]
  · intro h1 h2 h3
    unfold dateFacetInterval
    have hc : opts.gap_amount.getD 1 ≠ 1 ∧ pyLower opts.gap_by ≠ "month"
        ∧ pyLower opts.gap_by ≠ "year" := ⟨h3, h1, h2⟩
    rw [if_pos hc]

theorem claim_C8_date_facet_interval_witness :
    dictGet (objPairs (buildSearchKwargs cfgW
        { argsW with date_facets := some [("created",
            { gap_by := "week", gap_amount := some 2,
              start_date := "2016-01-01", end_date := "2016-12-31" })] }))
        "facets"
      = some (.obj [("created", buildDateFacet "created"
          { gap_by := "week", gap_amount := some 2,
            start_date := "2016-01-01", end_date := "2016-12-31" })])
    ∧ dateFacetInterval
        { gap_by := "week", gap_amount := some 2,
          start_date := "2016-01-01", end_date := "2016-12-31" }
      = toString ((some (2 : Int)).getD 1) ++ (pyLower "week").take 1
    ∧ dateFacetInterval
        { gap_by := "month", gap_amount := some 3,
          start_date := "2016-01-01", end_date := "2016-12-31" }
      = pyLower "month" :=
  have C1 := claim_C8_date_facet_interval cfgW
    { argsW with date_facets := some [("created",
        { gap_by := "week", gap_amount := some 2,
          start_date := "2016-01-01", end_date := "2016-12-31" })] }
    "created"
    { gap_by := "week", gap_amount := some 2,
      start_date := "2016-01-01", end_date := "2016-12-31" }
    rfl rfl rfl
  have C2 := claim_C8_date_facet_interval cfgW
    { argsW with date_facets := some [("created",
        { gap_by := "month", gap_amount := some 3,
          start_date := "2016-01-01", end_date := "2016-12-31" })] }
    "created"
    { gap_by := "month", gap_amount := some 3,
      start_date := "2016-01-01", end_date := "2016-12-31" }
    rfl rfl rfl
  ⟨C1.1, C1.2.2.2 (by decide) (by decide) (by decide),
   C2.2.2.1 (Or.inl (by decide))⟩

end ServiceDirectory
